import Mathlib

/-!
# Verification of the Digital Colonialism agent-based model

Shallow embedding of the core simulation (`agent.py`, `model.py`) of the
ABM---Digital-Colonialism- repository.  Python floats are modelled as exact
rationals (`ℚ`); the random draws consumed from the model's seeded stream are
passed in explicitly as parameters, so every stochastic function becomes a
pure function of its state, its environment (neighbor views, model
parameters) and the draws.
-/

namespace DigitalColonialism

/-- Per-community constants fixed in `ReceivingAgent.__init__`:
`self.ban_threshold = 65`. -/
def ban_threshold : ℚ := 65

/-- `self.ban_window = 3`. -/
def ban_window : Nat := 3

/-- `self.survival_threshold = 35`. -/
def survival_threshold : ℚ := 35

/-- Mutable and static per-community state of a `ReceivingAgent`
(`agent.py` lines 17-36). -/
structure ReceivingAgentState where
  cultural_resilience : ℚ
  infrastructure_strength : ℚ
  adoption_threshold : ℚ
  digital_access_score : ℚ
  adopted : Bool
  banned : Bool
  collapsed : Bool
  wellbeing : ℚ
  past_wellbeing : List ℚ
  was_targeted : Bool
deriving DecidableEq, Repr

/-- `ReceivingAgent.__init__`: traits are sampled by the model, flags start
false, wellbeing starts at 100, `was_targeted` starts `True`. -/
def ReceivingAgent.init (cr infra thr access : ℚ) : ReceivingAgentState :=
  { cultural_resilience := cr
    infrastructure_strength := infra
    adoption_threshold := thr
    digital_access_score := access
    adopted := false
    banned := false
    collapsed := false
    wellbeing := 100
    past_wellbeing := []
    was_targeted := true }

/-- Model-level parameters read by agents: `model.implementation_cost`,
`model.cultural_fit` and `model.tech_dominance`.  All three are set in
`DigitalColonialismModel.__init__` and never reassigned afterwards. -/
structure ModelParams where
  implementation_cost : ℚ
  cultural_fit : ℚ
  tech_dominance : ℚ
deriving DecidableEq, Repr

/-- The fields of a neighboring agent that `calculate_peer_influence` and
`track_wellbeing_and_ban` read. -/
structure NeighborView where
  adopted : Bool
  banned : Bool
  collapsed : Bool
  wellbeing : ℚ
deriving DecidableEq, Repr

/-- The random draws one `ReceivingAgent.step` may consume:
`uniform(-0.2, 0.3)` adoption noise, the `random()` crisis roll, the
`uniform(15, 30)` crisis damage, and the `uniform(0, 2.0)` divide noise. -/
structure StepDraws where
  adoption_noise : ℚ
  crisis_roll : ℚ
  crisis_damage : ℚ
  divide_noise : ℚ
deriving DecidableEq, Repr

/-- `ReceivingAgent.calculate_perceived_utility` (`agent.py` lines 75-91).
Note that the dominance factor reads `self.model.tech_dominance`, the
model-level construction parameter. -/
def calculate_perceived_utility (p : ModelParams) (a : ReceivingAgentState) : ℚ :=
  let cost := p.implementation_cost
  let cultural_fit := p.cultural_fit
  let base_utility := (a.infrastructure_strength / cost) * cultural_fit * a.digital_access_score
  let tech_boost := 1 + p.tech_dominance / 10
  max (3/10) (base_utility * tech_boost)

/-- `ReceivingAgent.calculate_peer_influence` (`agent.py` lines 93-116).
`net = none` models "no `network` attribute or `unique_id` not in it". -/
def calculate_peer_influence (net : Option (List NeighborView)) : ℚ :=
  match net with
  | none => 0
  | some neighbors =>
    if neighbors.length = 0 then 0
    else
      let adopters := neighbors.filter (fun n => n.adopted)
      let banned_neighbors := neighbors.filter (fun n => n.banned)
      let positive_influence := (adopters.length : ℚ) * (4/10)
      let negative_influence := (banned_neighbors.length : ℚ) * (3/10)
      (positive_influence - negative_influence) / (neighbors.length : ℚ)

/-- `ReceivingAgent.decide_to_adopt` (`agent.py` lines 51-73). -/
def decide_to_adopt (p : ModelParams) (net : Option (List NeighborView)) (noise : ℚ)
    (a : ReceivingAgentState) : ReceivingAgentState :=
  if a.adopted || a.banned then a
  else
    let perceived_utility := calculate_perceived_utility p a
    let peer_influence := calculate_peer_influence net
    let adoption_score := perceived_utility + peer_influence - a.cultural_resilience * (5/10)
    let final_score := adoption_score + noise
    if final_score > a.adoption_threshold then { a with adopted := true } else a

/-- `ReceivingAgent.update_wellbeing` (`agent.py` lines 118-138). -/
def update_wellbeing (d : StepDraws) (a : ReceivingAgentState) : ReceivingAgentState :=
  let a1 :=
    if a.adopted then
      let delta := (a.infrastructure_strength - 5) * 4
      let w1 := a.wellbeing + delta
      let w2 := if d.crisis_roll < 8/100 then w1 - d.crisis_damage else w1
      { a with wellbeing := w2, infrastructure_strength := a.infrastructure_strength - 4/10 }
    else
      let decline := 5/2 + d.divide_noise
      { a with wellbeing := a.wellbeing - decline }
  { a1 with wellbeing := max 0 (min 100 a1.wellbeing) }

/-- `ReceivingAgent.track_wellbeing_and_ban` (`agent.py` lines 140-192). -/
def track_wellbeing_and_ban (net : Option (List NeighborView))
    (a : ReceivingAgentState) : ReceivingAgentState :=
  let hist0 := a.past_wellbeing ++ [a.wellbeing]
  let hist := if hist0.length > ban_window then hist0.drop 1 else hist0
  let a' := { a with past_wellbeing := hist }
  if a'.adopted && decide (hist.length = ban_window)
      && decide (hist.sum / (ban_window : ℚ) < ban_threshold) then
    { a' with banned := true, adopted := false }
  else if a'.banned then a'
  else
    match net with
    | none => a'
    | some neighbors =>
      if neighbors.length = 0 then a'
      else
        let adopted_neighbors := neighbors.filter (fun n => n.adopted && !n.banned && !n.collapsed)
        let collapsed_neighbors := neighbors.filter (fun n => n.collapsed)
        if collapsed_neighbors.length > 0 then { a' with banned := true, adopted := false }
        else if adopted_neighbors.length ≥ 1 then
          let suffering_neighbors := adopted_neighbors.filter (fun n => n.wellbeing < 70)
          if suffering_neighbors.length > 0 then { a' with banned := true, adopted := false }
          else a'
        else a'

/-- `ReceivingAgent.check_collapse` (`agent.py` lines 194-199). -/
def check_collapse (a : ReceivingAgentState) : ReceivingAgentState :=
  if a.wellbeing < survival_threshold then
    { a with collapsed := true, adopted := false, banned := true }
  else a

/-- `ReceivingAgent.step` (`agent.py` lines 38-49): skip if banned or
collapsed, decide adoption only when targeted, then always update wellbeing,
evaluate bans, evaluate collapse. -/
def ReceivingAgent.step (p : ModelParams) (net : Option (List NeighborView))
    (d : StepDraws) (a : ReceivingAgentState) : ReceivingAgentState :=
  if a.banned || a.collapsed then a
  else
    let a1 := if a.was_targeted then decide_to_adopt p net d.adoption_noise a else a
    let a2 := update_wellbeing d a1
    let a3 := track_wellbeing_and_ban net a2
    check_collapse a3

/-- The outcome counts `TechSuperpowerAgent.monitor_global_rejection`
computes over `model.agents` (`agent.py` lines 255-269). -/
structure OutcomeCounts where
  adopted_count : Nat
  banned_count : Nat
  collapsed_count : Nat
  total_count : Nat
  deployed_count : Nat
deriving DecidableEq, Repr

/-- `TechSuperpowerAgent.monitor_global_rejection` (`agent.py` lines
250-288), as the update it performs on `self.tech_dominance`. -/
def monitor_global_rejection (c : OutcomeCounts) (dominance : ℚ) : ℚ :=
  if c.total_count = 0 then dominance
  else
    let success_rate : ℚ := (c.adopted_count : ℚ) / ((c.deployed_count : ℚ) + 1)
    let failure_rate : ℚ := ((c.banned_count : ℚ) + (c.collapsed_count : ℚ)) / (c.total_count : ℚ)
    if failure_rate > 3/10 then
      let dominance_loss := (3/10) * (failure_rate - 3/10)
      max 1 (dominance - dominance_loss)
    else if success_rate > 4/10 then
      let dominance_gain := (2/10) * (success_rate - 4/10)
      min 5 (dominance + dominance_gain)
    else if 1/10 ≤ failure_rate ∧ failure_rate < 3/10 ∧ 2/10 < success_rate ∧ success_rate < 4/10 then
      if dominance > 3 then max 3 (dominance - 5/100)
      else if dominance < 3 then min 3 (dominance + 5/100)
      else dominance
    else dominance

/-- Undirected network topology as an edge list over agent indices
(the `networkx` graph of `model.create_network`). -/
abbrev NetTopology := List (Nat × Nat)

/-- `self.model.network.neighbors(self.unique_id)` on an edge list. -/
def neighborsOf (net : NetTopology) (i : Nat) : List Nat :=
  net.filterMap (fun e =>
    if e.1 = i then some e.2 else if e.2 = i then some e.1 else none)

/-- The mutable model-level state: the roster of receiving agents (index =
`unique_id`), the tech superpower agent's dominance
(`TechSuperpowerAgent.tech_dominance`, distinct from the immutable
`ModelParams.tech_dominance`), `len(self.deployed_agents)`, and the network
(`none` when `create_network` never assigned `self.network`). -/
structure ModelState where
  agents : List ReceivingAgentState
  tech_dominance_agent : ℚ
  deployed_count : Nat
  network : Option NetTopology
deriving DecidableEq, Repr

/-- A permutation of a list chosen by an oracle of random indices; models
the selection order produced by `random.sample` / `random.shuffle`.  Each
oracle entry picks (mod the remaining length) the next element. -/
def permuteBy {α : Type} (l : List α) (oracle : List Nat) : List α :=
  match oracle, l with
  | [], rest => rest
  | _ :: _, [] => []
  | i :: is, x :: xs =>
    let j := i % (x :: xs).length
    (x :: xs).get ⟨j, Nat.mod_lt i (Nat.succ_pos xs.length)⟩ ::
      permuteBy ((x :: xs).eraseIdx j) is

/-- `random.sample(population, k)` for `k ≤ len(population)`: `k` distinct
elements, in an oracle-chosen order. -/
def sample {α : Type} (population : List α) (k : Nat) (oracle : List Nat) : List α :=
  (permuteBy population oracle).take k

/-- `deployment_policy` values: `'all'`, `'random'`, `'filtered'`, or any
other string (which yields an empty target list). -/
inductive DeploymentPolicy
  | all
  | random
  | filtered
  | other (s : String)
deriving DecidableEq, Repr

/-- Oracles consumed by the two `random.sample` calls of the `'random'`
policy branch. -/
structure DeployDraws where
  high_oracle : List Nat
  low_oracle : List Nat
deriving DecidableEq, Repr

/-- The eligibility filter of `deploy_technology`: receiving agents that are
neither banned nor collapsed (`agent.py` lines 220-222). -/
def eligible_agents (agents : List (Nat × ReceivingAgentState)) :
    List (Nat × ReceivingAgentState) :=
  agents.filter (fun ia => !ia.2.banned && !ia.2.collapsed)

/-- The policy dispatch of `TechSuperpowerAgent.deploy_technology`
(`agent.py` lines 224-243), applied to the eligible agents (paired with
their indices).  `int(len * 0.5)` is exact halving rounded down. -/
def deploy_targets (policy : DeploymentPolicy) (d : DeployDraws)
    (receiving_agents : List (Nat × ReceivingAgentState)) :
    List (Nat × ReceivingAgentState) :=
  match policy with
  | .all => receiving_agents
  | .random =>
    let high_access := receiving_agents.filter (fun ia => ia.2.digital_access_score ≥ 6/10)
    let low_access := receiving_agents.filter (fun ia => ia.2.digital_access_score < 4/10)
    let num_to_deploy := max 1 (receiving_agents.length / 2)
    let num_high := num_to_deploy / 2
    let num_low := num_to_deploy - num_high
    let selected_high := sample high_access (min high_access.length num_high) d.high_oracle
    let selected_low := sample low_access (min low_access.length num_low) d.low_oracle
    selected_high ++ selected_low
  | .filtered => receiving_agents.filter (fun ia => ia.2.digital_access_score ≥ 6/10)
  | .other _ => []

/-- `TechSuperpowerAgent.deploy_technology` (`agent.py` lines 214-248):
reset `was_targeted` on every receiving agent, filter the eligible ones,
select targets by policy, mark them, and remember `deployed_agents`. -/
def deploy_technology (policy : DeploymentPolicy) (d : DeployDraws)
    (st : ModelState) : ModelState :=
  let reset := st.agents.map (fun a => { a with was_targeted := false })
  let receiving_agents := eligible_agents reset.enum
  let targets := deploy_targets policy d receiving_agents
  let target_ids := targets.map (fun ia => ia.1)
  let agents' := reset.enum.map (fun ia =>
    if target_ids.contains ia.1 then { ia.2 with was_targeted := true } else ia.2)
  { st with agents := agents', deployed_count := targets.length }

/-- The counts `monitor_global_rejection` computes from the current
population snapshot (`agent.py` lines 255-269). -/
def outcome_counts (st : ModelState) : OutcomeCounts :=
  { adopted_count := (st.agents.filter (fun a => a.adopted && !a.banned)).length
    banned_count := (st.agents.filter (fun a => a.banned)).length
    collapsed_count := (st.agents.filter (fun a => a.collapsed)).length
    total_count := st.agents.length
    deployed_count := st.deployed_count }

/-- `TechSuperpowerAgent.step` (`agent.py` lines 208-212): deploy, then
adjust the agent-level dominance from the observed outcomes. -/
def tech_agent_step (policy : DeploymentPolicy) (d : DeployDraws)
    (st : ModelState) : ModelState :=
  let st1 := deploy_technology policy d st
  { st1 with tech_dominance_agent :=
      monitor_global_rejection (outcome_counts st1) st1.tech_dominance_agent }

/-- The environment a receiving agent reads from the network: `none` when
the model has no `network` attribute or the agent is not a node of it,
otherwise the current states of its neighbors (neighbor ids without a
matching agent are skipped, as in `agent.py` lines 98-104). -/
def neighborViews (st : ModelState) (i : Nat) : Option (List NeighborView) :=
  match st.network with
  | none => none
  | some net =>
    if i < st.agents.length then
      some ((neighborsOf net i).filterMap (fun j =>
        (st.agents.get? j).map (fun a =>
          { adopted := a.adopted, banned := a.banned,
            collapsed := a.collapsed, wellbeing := a.wellbeing })))
    else none

/-- Execute agent `i`'s step in place, reading neighbors from the current
(possibly already partly updated) roster. -/
def step_agent_at (p : ModelParams) (st : ModelState) (d : StepDraws) (i : Nat) :
    ModelState :=
  match st.agents.get? i with
  | none => st
  | some a =>
    { st with agents := st.agents.set i (ReceivingAgent.step p (neighborViews st i) d a) }

/-- The random draws one model round consumes: the deployer's sampling
oracles, the `random.shuffle` oracle, and each agent's step draws. -/
structure RoundDraws where
  deploy_draws : DeployDraws
  shuffle_oracle : List Nat
  agent_draws : Nat → StepDraws

/-- `DigitalColonialismModel.step` (`model.py` lines 126-142): the tech
superpower acts first, then the receiving agents act in shuffled order,
each seeing the live states left by earlier agents.  (The data collection
has no effect on the simulation state.) -/
def model_step (p : ModelParams) (policy : DeploymentPolicy) (rd : RoundDraws)
    (st : ModelState) : ModelState :=
  let st1 := tech_agent_step policy rd.deploy_draws st
  let order := permuteBy (List.range st1.agents.length) rd.shuffle_oracle
  order.foldl (fun s i => step_agent_at p s (rd.agent_draws i) i) st1

/-- `random.uniform(lo, hi)` as an affine image of a unit draw. -/
def uniform (lo hi u : ℚ) : ℚ := lo + (hi - lo) * u

/-- The draws `init_agents` consumes for one receiving agent
(`model.py` lines 85-99). -/
structure AgentDraws where
  privileged_roll : ℚ
  infra_unit : ℚ
  access_unit : ℚ
  resilience_unit : ℚ
  threshold_unit : ℚ
deriving DecidableEq, Repr

/-- One iteration of `init_agents` (`model.py` lines 85-114): privileged
communities (30% chance) draw stronger infrastructure and access. -/
def init_agent (d : AgentDraws) : ReceivingAgentState :=
  let pair :=
    if d.privileged_roll < 3/10 then
      (uniform 8 12 d.infra_unit, uniform (7/10) 1 d.access_unit)
    else
      (uniform 2 8 d.infra_unit, uniform (2/10) (7/10) d.access_unit)
  ReceivingAgent.init (uniform (5/100) (8/10) d.resilience_unit) pair.1
    (uniform (1/10) 1 d.threshold_unit) pair.2

/-- Everything the seeded pseudo-random stream deterministically yields for
one run: per-agent initialization draws, the Watts-Strogatz edge list for a
given node count (`nx.watts_strogatz_graph(n, 4, 0.3, seed)`), and each
round's draws.  A `rng : Nat → RunRandomness` maps an effective seed to its
stream, modelling `random.Random(self.seed)` and the seeded `networkx`
construction as one deterministic function of the seed. -/
structure RunRandomness where
  agent_init_draws : Nat → AgentDraws
  watts_edges : Nat → NetTopology
  round_draws : Nat → RoundDraws

/-- `self.seed = seed or random.randint(0, 99999)` (`model.py` line 26):
Python's `or` replaces a falsy left operand, so both `None` and `0` fall
back to a fresh draw `global_draw` from the global stream. -/
def init_seed (seed : Option Nat) (global_draw : Nat) : Nat :=
  match seed with
  | none => global_draw
  | some s => if s = 0 then global_draw else s

/-- `network_type` values: `'small_world'` or anything else. -/
inductive NetworkType
  | small_world
  | other (s : String)
deriving DecidableEq, Repr

/-- `DigitalColonialismModel.create_network` (`model.py` lines 64-78).
For `'small_world'` it calls `nx.watts_strogatz_graph(n, k=4, p=0.3,
seed)`, which raises `NetworkXError` when `k >= n`; for any other kind no
branch matches and `self.network` is never assigned (`none`). -/
def create_network (rng : Nat → RunRandomness) (eff_seed n : Nat) :
    NetworkType → Except String (Option NetTopology)
  | .small_world =>
    if 4 ≥ n then Except.error ("NetworkXError: k>=n, choose smaller k or larger n")
    else Except.ok (some ((rng eff_seed).watts_edges n))
  | .other _ => Except.ok none

/-- Construction parameters of `DigitalColonialismModel.__init__`. -/
structure InitParams where
  num_receiving_agents : Int
  implementation_cost : ℚ
  cultural_fit : ℚ
  deployment_policy : DeploymentPolicy
  tech_dominance : ℚ
  network_type : NetworkType

/-- `DigitalColonialismModel.__init__` (`model.py` lines 23-59): resolve
the seed, sample the agents (`range(m)` is empty for `m ≤ 0`), then build
the network.  The only way construction can fail is the `networkx` raise
inside `create_network`. -/
def DigitalColonialismModel.init (rng : Nat → RunRandomness) (ip : InitParams)
    (seed : Option Nat) (global_draw : Nat) :
    Except String (ModelParams × ModelState) :=
  let eff := init_seed seed global_draw
  let n := ip.num_receiving_agents.toNat
  let agents := (List.range n).map (fun i => init_agent ((rng eff).agent_init_draws i))
  match create_network rng eff agents.length ip.network_type with
  | Except.error e => Except.error e
  | Except.ok net =>
    Except.ok
      ({ implementation_cost := ip.implementation_cost
         cultural_fit := ip.cultural_fit
         tech_dominance := ip.tech_dominance },
       { agents := agents
         tech_dominance_agent := ip.tech_dominance
         deployed_count := 0
         network := net })

/-- Iterate `model.step()` for `k` rounds. -/
def run_rounds (rng : RunRandomness) (p : ModelParams) (policy : DeploymentPolicy)
    (st : ModelState) (k : Nat) : ModelState :=
  (List.range k).foldl (fun s r => model_step p policy (rng.round_draws r) s) st

/-- A whole run: construct the model, then step `k` rounds.  All randomness
flows from `rng` applied to the effective seed. -/
def runModel (rng : Nat → RunRandomness) (ip : InitParams) (seed : Option Nat)
    (global_draw k : Nat) : Except String ModelState :=
  match DigitalColonialismModel.init rng ip seed global_draw with
  | Except.error e => Except.error e
  | Except.ok pst =>
    Except.ok (run_rounds (rng (init_seed seed global_draw)) pst.1
      ip.deployment_policy pst.2 k)

/-- Modelled from the spec: the spec's perceived-utility formula with the
dominance factor as an explicit argument, so it can be instantiated either
with the Deployer's current (feedback-adjusted) dominance or with the
model-level construction parameter, and compared with
`calculate_perceived_utility`. -/
def spec_perceived_utility (cost fit dominance : ℚ) (a : ReceivingAgentState) : ℚ :=
  max (3/10) (a.infrastructure_strength / cost * fit * a.digital_access_score * (1 + dominance / 10))

/-! Concrete instances used by witnesses and counterexamples. -/

/-- Example model parameters (the defaults of `model.py`). -/
def exParams : ModelParams := { implementation_cost := 5, cultural_fit := 8/10, tech_dominance := 3 }

/-- Example step draws: no crisis (roll 1/2 ≥ 0.08), divide noise 1. -/
def exDraws : StepDraws :=
  { adoption_noise := 0, crisis_roll := 1/2, crisis_damage := 20, divide_noise := 1 }

/-- A banned, non-collapsed community. -/
def exBannedAgent : ReceivingAgentState :=
  { ReceivingAgent.init (5/10) 6 (5/10) (5/10) with banned := true, wellbeing := 50 }

/-- A collapsed community that was targeted in the round it collapsed. -/
def exCollapsedAgent : ReceivingAgentState :=
  { ReceivingAgent.init (5/10) 6 (5/10) (5/10) with
      banned := true, collapsed := true, wellbeing := 20, was_targeted := true }

/-- A healthy community with strong infrastructure. -/
def exStrongAgent : ReceivingAgentState := ReceivingAgent.init (5/10) 10 (5/10) (5/10)

/-- A community with low digital access (score 0.3 < 0.4). -/
def exLowAccessAgent : ReceivingAgentState := ReceivingAgent.init (5/10) 6 (5/10) (3/10)

/-- An adopted neighbor as seen through the network. -/
def exNeighbor : NeighborView :=
  { adopted := true, banned := false, collapsed := false, wellbeing := 80 }

/-- A collapsed neighbor as seen through the network. -/
def exCollapsedNeighbor : NeighborView :=
  { adopted := false, banned := true, collapsed := true, wellbeing := 0 }

/-- Empty sampling oracles. -/
def exDeployDraws : DeployDraws := { high_oracle := [], low_oracle := [] }

/-- One round of draws. -/
def exRoundDraws : RoundDraws :=
  { deploy_draws := exDeployDraws, shuffle_oracle := [], agent_draws := fun _ => exDraws }

/-- A model whose two communities have both banned the technology. -/
def exBannedModel : ModelState :=
  { agents := [exBannedAgent, exBannedAgent], tech_dominance_agent := 3,
    deployed_count := 0, network := some [] }

/-- A model with a single eligible low-access community. -/
def exLowModel : ModelState :=
  { agents := [exLowAccessAgent], tech_dominance_agent := 3,
    deployed_count := 0, network := some [] }

/-- A model with a single collapsed community. -/
def exCollapsedModel : ModelState :=
  { agents := [exCollapsedAgent], tech_dominance_agent := 3,
    deployed_count := 0, network := some [] }

/-- A deterministic random stream whose generated network topology depends
on the effective seed, standing in for the seeded Mersenne Twister and the
seeded `networkx` generator. -/
def exRng : Nat → RunRandomness := fun s =>
  { agent_init_draws := fun _ =>
      { privileged_roll := 1, infra_unit := 0, access_unit := 0,
        resilience_unit := 0, threshold_unit := 0 }
    watts_edges := fun _ => [(s, s)]
    round_draws := fun _ => exRoundDraws }

/-- Construction parameters with five communities and the small-world
network (the only kind `create_network` handles). -/
def exSmallWorldParams : InitParams :=
  { num_receiving_agents := 5, implementation_cost := 5, cultural_fit := 8/10,
    deployment_policy := DeploymentPolicy.random, tech_dominance := 3,
    network_type := NetworkType.small_world }

/-- Construction parameters with a negative community count and the
small-world network kind. -/
def exNegParams : InitParams :=
  { num_receiving_agents := -3, implementation_cost := 5, cultural_fit := 8/10,
    deployment_policy := DeploymentPolicy.random, tech_dominance := 3,
    network_type := NetworkType.small_world }

/-- Construction parameters with a non-positive community count and an
unknown network kind. -/
def exUnknownParams : InitParams :=
  { num_receiving_agents := 0, implementation_cost := 5, cultural_fit := 8/10,
    deployment_policy := DeploymentPolicy.random, tech_dominance := 3,
    network_type := NetworkType.other ("ring") }

/-- The state-exclusivity invariant of a community: collapsed implies
banned implies not adopted. -/
def flag_exclusivity (a : ReceivingAgentState) : Prop :=
  (a.collapsed = true → a.banned = true) ∧ (a.banned = true → a.adopted = false)

/-- States of the simulation reachable from a successful construction by
iterating `model.step()` (with arbitrary random draws each round). -/
inductive ModelReachable : ModelParams → DeploymentPolicy → ModelState → Prop
  | construction (rng : Nat → RunRandomness) (ip : InitParams) (seed : Option Nat)
      (g : Nat) (p : ModelParams) (st : ModelState) :
      DigitalColonialismModel.init rng ip seed g = Except.ok (p, st) →
      ModelReachable p ip.deployment_policy st
  | round (p : ModelParams) (policy : DeploymentPolicy) (st : ModelState)
      (rd : RoundDraws) : ModelReachable p policy st →
      ModelReachable p policy (model_step p policy rd st)

/-- The model state built by construction with `exRng`, seed `None` and
global draw 7 under `exSmallWorldParams`. -/
def exInitState : ModelState :=
  { agents := (List.range 5).map (fun i => init_agent ((exRng 7).agent_init_draws i))
    tech_dominance_agent := 3
    deployed_count := 0
    network := some [(7, 7)] }

/-- The first community of `exInitState`. -/
def exInitAgent : ReceivingAgentState := init_agent ((exRng 7).agent_init_draws 0)

/-! Helper lemmas shared by the claim theorems. -/

/-- A banned or collapsed agent's step is the identity (`agent.py` lines 40-41). -/
theorem step_skips_inactive (p : ModelParams) (net : Option (List NeighborView))
    (d : StepDraws) (a : ReceivingAgentState) (h : a.banned = true ∨ a.collapsed = true) :
    ReceivingAgent.step p net d a = a := by
  rcases h with h | h <;> simp [ReceivingAgent.step, h]

/-- One application of the dominance feedback rule keeps dominance in [1, 5]. -/
theorem monitor_preserves_bounds (c : OutcomeCounts) (d : ℚ) (h1 : 1 ≤ d) (h5 : d ≤ 5) :
    1 ≤ monitor_global_rejection c d ∧ monitor_global_rejection c d ≤ 5 := by
  unfold monitor_global_rejection
  dsimp only
  split_ifs with htot hfail hsucc hmix hgt hlt
  · exact ⟨h1, h5⟩
  · constructor
    · exact le_max_left 1 _
    · refine max_le (by norm_num) ?_
      have hloss : (0:ℚ) ≤ (3/10) *
          (((c.banned_count : ℚ) + (c.collapsed_count : ℚ)) / (c.total_count : ℚ) - 3/10) := by
        linarith
      linarith
  · constructor
    · refine le_min (by norm_num) ?_
      have hgain : (0:ℚ) ≤ (2/10) *
          ((c.adopted_count : ℚ) / ((c.deployed_count : ℚ) + 1) - 4/10) := by
        linarith
      linarith
    · exact min_le_left 5 _
  · exact ⟨le_trans (by norm_num) (le_max_left 3 _), max_le (by norm_num) (by linarith)⟩
  · exact ⟨le_min (by norm_num) (by linarith), le_trans (min_le_left 3 _) (by norm_num)⟩
  · exact ⟨h1, h5⟩
  · exact ⟨h1, h5⟩

/-! Claim theorems. -/

/-- C1 (counterexample): after the dominance-feedback rule has lowered the
Deployer's dominance from 3 to 2.79, a community's perceived utility is
still the formula at the fixed construction value 3, not at the Deployer's
current value 2.79 — feedback changes are not reflected in utility. -/
theorem C1_counterexample :
    (tech_agent_step DeploymentPolicy.all exDeployDraws exBannedModel).tech_dominance_agent = 279/100 ∧
    exParams.tech_dominance = 3 ∧
    calculate_perceived_utility exParams exStrongAgent =
      spec_perceived_utility exParams.implementation_cost exParams.cultural_fit 3 exStrongAgent ∧
    calculate_perceived_utility exParams exStrongAgent ≠
      spec_perceived_utility exParams.implementation_cost exParams.cultural_fit (279/100) exStrongAgent := by
  refine ⟨?_, rfl, rfl, ?_⟩
  · norm_num [tech_agent_step, deploy_technology, outcome_counts, monitor_global_rejection,
      eligible_agents, deploy_targets, exBannedModel, exBannedAgent, exDeployDraws,
      ReceivingAgent.init, List.enum, List.enumFrom, List.filter]
  · norm_num [calculate_perceived_utility, spec_perceived_utility, exParams, exStrongAgent,
      ReceivingAgent.init, max_def]

/-- C1 (amended): perceived utility equals
max(0.3, (infrastructure_strength / implementation_cost) * cultural_fit *
digital_access_score * (1 + dominance/10)) where dominance is the
model-level `tech_dominance` construction parameter, which the
dominance-feedback rule never updates (the rule only changes the
Deployer agent's own attribute, which utility computations never read). -/
theorem C1_utility_formula (p : ModelParams) (a : ReceivingAgentState) :
    calculate_perceived_utility p a =
      spec_perceived_utility p.implementation_cost p.cultural_fit p.tech_dominance a := rfl

/-- C2 (counterexample): a banned, non-collapsed community's round is a
no-op — in particular its wellbeing stays unchanged, although the wellbeing
update would have changed it. -/
theorem C2_counterexample :
    exBannedAgent.banned = true ∧ exBannedAgent.collapsed = false ∧
    ReceivingAgent.step exParams none exDraws exBannedAgent = exBannedAgent ∧
    (update_wellbeing exDraws exBannedAgent).wellbeing ≠ exBannedAgent.wellbeing := by
  refine ⟨rfl, rfl, step_skips_inactive exParams none exDraws exBannedAgent (Or.inl rfl), ?_⟩
  norm_num [update_wellbeing, exDraws, exBannedAgent, ReceivingAgent.init, max_def, min_def]

/-- C2 (amended): for a community whose banned flag is true at the start of
a round, the per-round cycle is skipped entirely — no wellbeing update is
performed and its state (wellbeing included) no longer changes. -/
theorem C2_banned_skips_cycle (p : ModelParams) (net : Option (List NeighborView))
    (d : StepDraws) (a : ReceivingAgentState) (h : a.banned = true) :
    ReceivingAgent.step p net d a = a :=
  step_skips_inactive p net d a (Or.inl h)

/-- C2 (witness). -/
theorem C2_witness :
    exBannedAgent.banned = true ∧
    ReceivingAgent.step exParams none exDraws exBannedAgent = exBannedAgent :=
  ⟨rfl, C2_banned_skips_cycle exParams none exDraws exBannedAgent rfl⟩

/-- C5: if dominance starts in [1.0, 5.0], it remains in [1.0, 5.0] after
every application of the dominance-feedback rule, for any sequence of
per-round outcome counts. -/
theorem C5_dominance_bounds (rounds : List OutcomeCounts) (d : ℚ)
    (h1 : 1 ≤ d) (h5 : d ≤ 5) :
    1 ≤ rounds.foldl (fun x c => monitor_global_rejection c x) d ∧
    rounds.foldl (fun x c => monitor_global_rejection c x) d ≤ 5 := by
  induction rounds generalizing d with
  | nil => exact ⟨h1, h5⟩
  | cons c cs ih =>
    have h := monitor_preserves_bounds c d h1 h5
    exact ih (monitor_global_rejection c d) h.1 h.2

/-- C5 (witness): three rounds of feedback from dominance 3. -/
theorem C5_witness :
    (1:ℚ) ≤ 3 ∧ (3:ℚ) ≤ 5 ∧
    (1 ≤ [outcome_counts exBannedModel, outcome_counts exLowModel,
          outcome_counts exCollapsedModel].foldl
            (fun x c => monitor_global_rejection c x) 3 ∧
     [outcome_counts exBannedModel, outcome_counts exLowModel,
          outcome_counts exCollapsedModel].foldl
            (fun x c => monitor_global_rejection c x) 3 ≤ 5) :=
  ⟨by norm_num, by norm_num,
    C5_dominance_bounds
      [outcome_counts exBannedModel, outcome_counts exLowModel,
        outcome_counts exCollapsedModel] 3 (by norm_num) (by norm_num)⟩

/-- C10: peer influence is 0 with no network or no neighbors, equals
(0.4 × adopted_neighbor_count − 0.3 × banned_neighbor_count) /
total_neighbor_count otherwise, and always lies in [-0.3, 0.4]. -/
theorem C10_peer_influence :
    calculate_peer_influence none = 0 ∧
    calculate_peer_influence (some []) = 0 ∧
    ∀ ns : List NeighborView, ns ≠ [] →
      calculate_peer_influence (some ns) =
        ((4/10) * ((ns.filter (fun n => n.adopted)).length : ℚ) -
          (3/10) * ((ns.filter (fun n => n.banned)).length : ℚ)) / (ns.length : ℚ) ∧
      -(3/10) ≤ calculate_peer_influence (some ns) ∧
      calculate_peer_influence (some ns) ≤ 4/10 := by
  refine ⟨rfl, rfl, fun ns hne => ?_⟩
  have hlen : ns.length ≠ 0 := fun h => hne (List.length_eq_zero.mp h)
  have hN : (0:ℚ) < (ns.length : ℚ) := by
    exact_mod_cast Nat.pos_of_ne_zero hlen
  have hval : calculate_peer_influence (some ns) =
      (((ns.filter (fun n => n.adopted)).length : ℚ) * (4/10) -
        ((ns.filter (fun n => n.banned)).length : ℚ) * (3/10)) / (ns.length : ℚ) := by
    simp [calculate_peer_influence, hlen]
  have hA : ((ns.filter (fun n => n.adopted)).length : ℚ) ≤ (ns.length : ℚ) := by
    exact_mod_cast List.length_filter_le _ ns
  have hB : ((ns.filter (fun n => n.banned)).length : ℚ) ≤ (ns.length : ℚ) := by
    exact_mod_cast List.length_filter_le _ ns
  have hA0 : (0:ℚ) ≤ ((ns.filter (fun n => n.adopted)).length : ℚ) := by positivity
  have hB0 : (0:ℚ) ≤ ((ns.filter (fun n => n.banned)).length : ℚ) := by positivity
  refine ⟨by rw [hval]; ring_nf, ?_, ?_⟩
  · rw [hval, le_div_iff hN]
    nlinarith
  · rw [hval, div_le_iff hN]
    nlinarith

/-- C10 (witness): one adopted neighbor. -/
theorem C10_witness :
    calculate_peer_influence (some [exNeighbor]) =
      ((4/10) * (([exNeighbor].filter (fun n => n.adopted)).length : ℚ) -
        (3/10) * (([exNeighbor].filter (fun n => n.banned)).length : ℚ)) /
        (([exNeighbor] : List NeighborView).length : ℚ) ∧
    -(3/10) ≤ calculate_peer_influence (some [exNeighbor]) ∧
    calculate_peer_influence (some [exNeighbor]) ≤ 4/10 :=
  C10_peer_influence.2.2 [exNeighbor] (by simp)

/-- `decide_to_adopt` never changes the banned or collapsed flags. -/
theorem decide_to_adopt_preserves_flags (p : ModelParams) (net : Option (List NeighborView))
    (noise : ℚ) (a : ReceivingAgentState) :
    (decide_to_adopt p net noise a).banned = a.banned ∧
    (decide_to_adopt p net noise a).collapsed = a.collapsed := by
  unfold decide_to_adopt
  dsimp only
  split_ifs <;> simp

/-- `update_wellbeing` never changes the adoption, ban, or collapse flags. -/
theorem update_wellbeing_preserves_flags (d : StepDraws) (a : ReceivingAgentState) :
    (update_wellbeing d a).adopted = a.adopted ∧
    (update_wellbeing d a).banned = a.banned ∧
    (update_wellbeing d a).collapsed = a.collapsed := by
  unfold update_wellbeing
  dsimp only
  split_ifs <;> simp

/-- `track_wellbeing_and_ban` either leaves the three flags unchanged or
sets banned with adopted cleared; it never touches collapsed. -/
theorem track_ban_cases (net : Option (List NeighborView)) (a : ReceivingAgentState) :
    ((track_wellbeing_and_ban net a).banned = a.banned ∧
     (track_wellbeing_and_ban net a).adopted = a.adopted ∧
     (track_wellbeing_and_ban net a).collapsed = a.collapsed) ∨
    ((track_wellbeing_and_ban net a).banned = true ∧
     (track_wellbeing_and_ban net a).adopted = false ∧
     (track_wellbeing_and_ban net a).collapsed = a.collapsed) := by
  cases net with
  | none =>
    unfold track_wellbeing_and_ban
    dsimp only
    split_ifs <;> first
      | exact Or.inl ⟨rfl, rfl, rfl⟩
      | exact Or.inr ⟨rfl, rfl, rfl⟩
  | some ns =>
    unfold track_wellbeing_and_ban
    dsimp only
    split_ifs <;> first
      | exact Or.inl ⟨rfl, rfl, rfl⟩
      | exact Or.inr ⟨rfl, rfl, rfl⟩

/-- `check_collapse` either collapses the agent completely or does nothing. -/
theorem check_collapse_cases (a : ReceivingAgentState) :
    check_collapse a = { a with collapsed := true, adopted := false, banned := true } ∨
    check_collapse a = a := by
  unfold check_collapse
  split_ifs
  · exact Or.inl rfl
  · exact Or.inr rfl

/-- `check_collapse` never clears the banned flag. -/
theorem check_collapse_preserves_ban (a : ReceivingAgentState) (h : a.banned = true) :
    (check_collapse a).banned = true := by
  unfold check_collapse
  split_ifs <;> simp [h]

/-- The network-based branch of `track_wellbeing_and_ban` bans as soon as a
collapsed neighbor is present (`agent.py` lines 179-184). -/
theorem track_panic_ban (ns : List NeighborView) (a : ReceivingAgentState)
    (hb : a.banned = false) (hcn : 0 < (ns.filter (fun n => n.collapsed)).length)
    (hne : ns.length ≠ 0) :
    (track_wellbeing_and_ban (some ns) a).banned = true := by
  unfold track_wellbeing_and_ban
  dsimp only
  split_ifs with h1 h2 h3 h4 h5 <;>
    first
      | rfl
      | (exfalso; simp_all)

/-- C8: a community that is neither banned nor collapsed at the start of
its cycle ends the cycle banned whenever one of its network neighbors has
collapsed, regardless of its own adoption state or wellbeing. -/
theorem C8_panic_ban (p : ModelParams) (ns : List NeighborView) (d : StepDraws)
    (a : ReceivingAgentState) (hb : a.banned = false) (hc : a.collapsed = false)
    (v : NeighborView) (hv : v ∈ ns) (hvc : v.collapsed = true) :
    (ReceivingAgent.step p (some ns) d a).banned = true := by
  have hne : ns.length ≠ 0 := by
    intro h0
    rw [List.length_eq_zero] at h0
    subst h0
    simp at hv
  have hcn : 0 < (ns.filter (fun n => n.collapsed)).length := by
    have hmem : v ∈ ns.filter (fun n => n.collapsed) :=
      List.mem_filter.mpr ⟨hv, by simp [hvc]⟩
    exact List.length_pos.mpr (fun hnil => by simp [hnil] at hmem)
  unfold ReceivingAgent.step
  rw [if_neg (by simp [hb, hc])]
  dsimp only
  apply check_collapse_preserves_ban
  apply track_panic_ban _ _ _ hcn hne
  rw [(update_wellbeing_preserves_flags _ _).2.1]
  split_ifs
  · rw [(decide_to_adopt_preserves_flags _ _ _ _).1]
    exact hb
  · exact hb

/-- C8 (witness): a healthy community with a single collapsed neighbor. -/
theorem C8_witness :
    exStrongAgent.banned = false ∧ exStrongAgent.collapsed = false ∧
    exCollapsedNeighbor ∈ [exCollapsedNeighbor] ∧ exCollapsedNeighbor.collapsed = true ∧
    (ReceivingAgent.step exParams (some [exCollapsedNeighbor]) exDraws exStrongAgent).banned = true :=
  ⟨rfl, rfl, List.mem_singleton.mpr rfl, rfl,
    C8_panic_ban exParams [exCollapsedNeighbor] exDraws exStrongAgent rfl rfl
      exCollapsedNeighbor (List.mem_singleton.mpr rfl) rfl⟩

/-- The oracle-driven permutation preserves length. -/
theorem permuteBy_length {α : Type} (l : List α) (o : List Nat) :
    (permuteBy l o).length = l.length := by
  induction o generalizing l with
  | nil => cases l <;> simp [permuteBy]
  | cons i is ih =>
    cases l with
    | nil => simp [permuteBy]
    | cons x xs =>
      rw [permuteBy]
      simp only [List.length_cons, ih, List.length_eraseIdx]
      split_ifs with h
      · omega
      · exact absurd (Nat.mod_lt _ (Nat.succ_pos _)) h

/-- `random.sample(pop, k)` returns at most `k` elements. -/
theorem sample_length_le {α : Type} (pop : List α) (k : Nat) (o : List Nat) :
    (sample pop k o).length ≤ k := by
  unfold sample
  simp only [List.length_take, permuteBy_length]
  exact Nat.min_le_left _ _

/-- C9 (amended): under the random policy, with d = max(1, floor(0.5 x
eligible_count)) requested deployments, the number of targeted communities
is min(high_count, floor(d/2)) + min(low_count, d - floor(d/2)); in
particular it is at most max(1, floor(0.5 x eligible_count)) — the max-1
floor means a single eligible low-access community is targeted even though
floor(0.5 x 1) = 0. -/
theorem C9_random_target_bound (d : DeployDraws) (el : List (Nat × ReceivingAgentState)) :
    (deploy_targets DeploymentPolicy.random d el).length ≤ max 1 (el.length / 2) := by
  unfold deploy_targets
  dsimp only
  rw [List.length_append]
  have h1 := sample_length_le (el.filter (fun ia => ia.2.digital_access_score ≥ 6/10))
      (min (el.filter (fun ia => ia.2.digital_access_score ≥ 6/10)).length
        (max 1 (el.length / 2) / 2)) d.high_oracle
  have h2 := sample_length_le (el.filter (fun ia => ia.2.digital_access_score < 4/10))
      (min (el.filter (fun ia => ia.2.digital_access_score < 4/10)).length
        (max 1 (el.length / 2) - max 1 (el.length / 2) / 2)) d.low_oracle
  have h1' := le_trans h1 (min_le_right _ _)
  have h2' := le_trans h2 (min_le_right _ _)
  set m := max 1 (el.length / 2) with hm
  omega

/-- C9 (counterexample): with exactly one eligible community, which is
low-access, the random policy targets 1 community, exceeding the claimed
bound of floor(0.5 x 1) = 0. -/
theorem C9_counterexample :
    (eligible_agents ((exLowModel.agents.map (fun a => { a with was_targeted := false })).enum)).length = 1 ∧
    (deploy_technology DeploymentPolicy.random exDeployDraws exLowModel).deployed_count = 1 ∧
    ¬((deploy_technology DeploymentPolicy.random exDeployDraws exLowModel).deployed_count ≤
        (eligible_agents ((exLowModel.agents.map (fun a => { a with was_targeted := false })).enum)).length / 2) := by
  refine ⟨?_, ?_, ?_⟩ <;>
    norm_num [deploy_technology, eligible_agents, deploy_targets, sample, permuteBy,
      exLowModel, exLowAccessAgent, ReceivingAgent.init, exDeployDraws,
      List.enum, List.enumFrom, List.filter]

/-- C7 (counterexample): constructing with both malformed inputs at once —
community count 0 and the unknown network kind "ring" — completes
construction silently: the result is `ok` with an empty roster and no
network, not a fast failure with a descriptive error. -/
theorem C7_counterexample :
    DigitalColonialismModel.init exRng exUnknownParams none 7 =
      Except.ok
        ({ implementation_cost := 5, cultural_fit := 8/10, tech_dominance := 3 },
         { agents := [], tech_dominance_agent := 3, deployed_count := 0, network := none }) := rfl

/-- C7 (amended): a non-positive community count with the small-world kind
does fail at construction, but only via the network library's k >= n check
(`nx.watts_strogatz_graph` raises `NetworkXError`), while an unknown
network kind completes construction silently, yielding a model whose
`network` attribute was never assigned. -/
theorem C7_construction_behavior :
    (∀ (rng : Nat → RunRandomness) (ip : InitParams) (seed : Option Nat) (g : Nat),
      ip.num_receiving_agents ≤ 0 → ip.network_type = NetworkType.small_world →
      DigitalColonialismModel.init rng ip seed g =
        Except.error ("NetworkXError: k>=n, choose smaller k or larger n")) ∧
    (∀ (rng : Nat → RunRandomness) (ip : InitParams) (seed : Option Nat) (g : Nat) (s : String),
      ip.network_type = NetworkType.other s →
      DigitalColonialismModel.init rng ip seed g =
        Except.ok
          ({ implementation_cost := ip.implementation_cost,
             cultural_fit := ip.cultural_fit, tech_dominance := ip.tech_dominance },
           { agents := (List.range ip.num_receiving_agents.toNat).map
               (fun i => init_agent ((rng (init_seed seed g)).agent_init_draws i)),
             tech_dominance_agent := ip.tech_dominance,
             deployed_count := 0, network := none })) := by
  constructor
  · intro rng ip seed g hle hnt
    have hn : ip.num_receiving_agents.toNat = 0 := Int.toNat_of_nonpos hle
    simp [DigitalColonialismModel.init, create_network, hn, hnt]
  · intro rng ip seed g s hnt
    simp [DigitalColonialismModel.init, create_network, hnt]

/-- C7 (witness): community count -3 with the small-world kind errors. -/
theorem C7_witness :
    DigitalColonialismModel.init exRng exNegParams none 7 =
      Except.error ("NetworkXError: k>=n, choose smaller k or larger n") :=
  C7_construction_behavior.1 exRng exNegParams none 7 (by norm_num [exNegParams]) rfl

/-- C4 (counterexample): `self.seed = seed or random.randint(0, 99999)`
treats the explicitly supplied seed 0 as falsy, so the effective seed is a
fresh global draw; two constructions with identical parameters and the same
explicit seed 0 can then differ (here: different network topologies). -/
theorem C4_counterexample :
    runModel exRng exSmallWorldParams (some 0) 1 0 ≠
      runModel exRng exSmallWorldParams (some 0) 2 0 := by
  intro h
  rw [show runModel exRng exSmallWorldParams (some 0) 1 0 = Except.ok
        { agents := (List.range 5).map (fun i => init_agent ((exRng 1).agent_init_draws i)),
          tech_dominance_agent := 3, deployed_count := 0, network := some [(1,1)] } from rfl,
      show runModel exRng exSmallWorldParams (some 0) 2 0 = Except.ok
        { agents := (List.range 5).map (fun i => init_agent ((exRng 2).agent_init_draws i)),
          tech_dominance_agent := 3, deployed_count := 0, network := some [(2,2)] } from rfl] at h
  have hnet := congrArg ModelState.network (Except.ok.inj h)
  exact absurd hnet (by decide)

/-- C4 (amended): for every NONZERO explicitly supplied seed, the whole run
is a function of the parameters and the seed alone — two simulations with
identical parameters and the same nonzero seed are identical after every
number of rounds (network topology, targets, flags, and wellbeing values
included), regardless of the global draw. -/
theorem C4_determinism_nonzero_seed (rng : Nat → RunRandomness) (ip : InitParams)
    (s : Nat) (hs : s ≠ 0) (g1 g2 k : Nat) :
    runModel rng ip (some s) g1 k = runModel rng ip (some s) g2 k := by
  have h : ∀ g, init_seed (some s) g = s := fun g => by simp [init_seed, hs]
  simp only [runModel, DigitalColonialismModel.init, h]

/-- C4 (witness): seed 1 with different global draws, three rounds. -/
theorem C4_witness :
    (1:Nat) ≠ 0 ∧
    runModel exRng exSmallWorldParams (some 1) 5 3 = runModel exRng exSmallWorldParams (some 1) 9 3 :=
  ⟨one_ne_zero, C4_determinism_nonzero_seed exRng exSmallWorldParams 1 one_ne_zero 5 9 3⟩

/-- Freshly initialized communities have all three flags false. -/
theorem init_agent_flags (d : AgentDraws) :
    (init_agent d).adopted = false ∧ (init_agent d).banned = false ∧
    (init_agent d).collapsed = false := by
  unfold init_agent ReceivingAgent.init
  dsimp only
  exact ⟨rfl, rfl, rfl⟩

/-- One agent step preserves the flag-exclusivity invariant. -/
theorem step_preserves_exclusivity (p : ModelParams) (net : Option (List NeighborView))
    (d : StepDraws) (a : ReceivingAgentState) (h : flag_exclusivity a) :
    flag_exclusivity (ReceivingAgent.step p net d a) := by
  unfold ReceivingAgent.step
  by_cases hskip : (a.banned || a.collapsed) = true
  · rw [if_pos hskip]
    exact h
  · rw [if_neg hskip]
    simp only [Bool.or_eq_true, not_or, Bool.not_eq_true] at hskip
    obtain ⟨hb, hc⟩ := hskip
    dsimp only
    generalize hA1 : (if a.was_targeted = true then decide_to_adopt p net d.adoption_noise a else a) = a1
    have h1 : a1.banned = false ∧ a1.collapsed = false := by
      rw [← hA1]
      split_ifs
      · exact ⟨((decide_to_adopt_preserves_flags p net d.adoption_noise a).1).trans hb,
          ((decide_to_adopt_preserves_flags p net d.adoption_noise a).2).trans hc⟩
      · exact ⟨hb, hc⟩
    have h2b : (update_wellbeing d a1).banned = false := by
      rw [(update_wellbeing_preserves_flags d a1).2.1]
      exact h1.1
    have h2c : (update_wellbeing d a1).collapsed = false := by
      rw [(update_wellbeing_preserves_flags d a1).2.2]
      exact h1.2
    rcases check_collapse_cases (track_wellbeing_and_ban net (update_wellbeing d a1)) with hcc | hcc <;>
      rw [hcc]
    · exact ⟨fun _ => rfl, fun _ => rfl⟩
    · rcases track_ban_cases net (update_wellbeing d a1) with ⟨t1, t2, t3⟩ | ⟨t1, t2, t3⟩
      · constructor
        · intro htc
          rw [t3, h2c] at htc
          exact absurd htc (by simp)
        · intro htb
          rw [t1, h2b] at htb
          exact absurd htb (by simp)
      · exact ⟨fun _ => t1, fun _ => t2⟩

/-- Every agent after deployment is an agent of the previous state with
only its `was_targeted` flag rewritten. -/
theorem deploy_mem_shape (policy : DeploymentPolicy) (dd : DeployDraws) (st : ModelState)
    (x : ReceivingAgentState) (hx : x ∈ (deploy_technology policy dd st).agents) :
    ∃ b ∈ st.agents, x = { b with was_targeted := false } ∨ x = { b with was_targeted := true } := by
  unfold deploy_technology at hx
  dsimp only at hx
  rw [List.mem_map] at hx
  obtain ⟨⟨j, c⟩, hjc, hfx⟩ := hx
  have hc : c ∈ st.agents.map (fun a => { a with was_targeted := false }) :=
    List.get?_mem (List.mem_enum_iff_get?.mp hjc)
  rw [List.mem_map] at hc
  obtain ⟨b, hb, hcb⟩ := hc
  refine ⟨b, hb, ?_⟩
  subst hcb
  dsimp only at hfx
  split_ifs at hfx
  · exact Or.inr hfx.symm
  · exact Or.inl hfx.symm

/-- The shuffled per-agent update loop preserves flag exclusivity. -/
theorem fold_steps_preserve (p : ModelParams) (order : List Nat)
    (draws : Nat → StepDraws) (st : ModelState)
    (h : ∀ a ∈ st.agents, flag_exclusivity a) :
    ∀ a ∈ (order.foldl (fun s i => step_agent_at p s (draws i) i) st).agents,
      flag_exclusivity a := by
  induction order generalizing st with
  | nil => exact h
  | cons i is ih =>
    simp only [List.foldl_cons]
    apply ih
    intro a ha
    unfold step_agent_at at ha
    cases hg : st.agents.get? i with
    | none =>
      rw [hg] at ha
      exact h a ha
    | some b =>
      rw [hg] at ha
      dsimp only at ha
      rcases List.mem_or_eq_of_mem_set ha with hmem | heq
      · exact h a hmem
      · subst heq
        exact step_preserves_exclusivity p (neighborViews st i) (draws i) b
          (h b (List.get?_mem hg))

/-- A whole simulation round preserves flag exclusivity. -/
theorem model_step_preserves_exclusivity (p : ModelParams) (policy : DeploymentPolicy)
    (rd : RoundDraws) (st : ModelState)
    (h : ∀ a ∈ st.agents, flag_exclusivity a) :
    ∀ a ∈ (model_step p policy rd st).agents, flag_exclusivity a := by
  unfold model_step tech_agent_step
  dsimp only
  apply fold_steps_preserve
  intro a ha
  obtain ⟨b, hb, hx⟩ := deploy_mem_shape policy rd.deploy_draws st a ha
  rcases hx with rfl | rfl
  · exact h b hb
  · exact h b hb

/-- Construction establishes flag exclusivity. -/
theorem init_establishes_exclusivity (rng : Nat → RunRandomness) (ip : InitParams)
    (seed : Option Nat) (g : Nat) (p : ModelParams) (st : ModelState)
    (hinit : DigitalColonialismModel.init rng ip seed g = Except.ok (p, st)) :
    ∀ a ∈ st.agents, flag_exclusivity a := by
  unfold DigitalColonialismModel.init at hinit
  dsimp only at hinit
  split at hinit
  · exact absurd hinit (by simp)
  · obtain ⟨hp, hst⟩ := Prod.mk.injEq .. |>.mp (Except.ok.inj hinit)
    subst hst
    intro a ha
    rw [List.mem_map] at ha
    obtain ⟨i, hi, rfl⟩ := ha
    obtain ⟨h1, h2, h3⟩ := init_agent_flags ((rng (init_seed seed g)).agent_init_draws i)
    exact ⟨fun h' => absurd (h3 ▸ h') (by simp), fun h' => absurd (h2 ▸ h') (by simp)⟩

/-- C3: in every reachable state of the simulation, every community
satisfies collapsed => banned => not adopted; in particular no community is
ever simultaneously adopted and banned. -/
theorem C3_state_exclusivity (p : ModelParams) (policy : DeploymentPolicy) (st : ModelState)
    (h : ModelReachable p policy st) :
    ∀ a ∈ st.agents,
      (a.collapsed = true → a.banned = true) ∧ (a.banned = true → a.adopted = false) := by
  induction h with
  | construction rng ip seed g p' st' hinit =>
    exact init_establishes_exclusivity rng ip seed g p' st' hinit
  | round p' policy' st' rd hr ih =>
    exact model_step_preserves_exclusivity p' policy' rd st' ih

/-- C3 (witness): the invariant at a freshly constructed model's first
community. -/
theorem C3_witness :
    (exInitAgent.collapsed = true → exInitAgent.banned = true) ∧
    (exInitAgent.banned = true → exInitAgent.adopted = false) :=
  C3_state_exclusivity exParams exSmallWorldParams.deployment_policy exInitState
    (ModelReachable.construction exRng exSmallWorldParams none 7 exParams exInitState rfl)
    exInitAgent (List.mem_map.mpr ⟨0, by simp, rfl⟩)

/-- Elements of an oracle permutation come from the original list. -/
theorem permuteBy_subset {α : Type} (l : List α) (o : List Nat) :
    ∀ x ∈ permuteBy l o, x ∈ l := by
  induction o generalizing l with
  | nil =>
    intro x hx
    rw [permuteBy] at hx
    exact hx
  | cons i is ih =>
    cases l with
    | nil =>
      intro x hx
      simp [permuteBy] at hx
    | cons y ys =>
      intro x hx
      rw [permuteBy] at hx
      rcases List.mem_cons.mp hx with h | h
      · subst h
        exact List.get_mem _ _ _
      · exact List.eraseIdx_subset _ _ (ih _ x h)

/-- Every selected target is one of the eligible communities. -/
theorem deploy_targets_subset (policy : DeploymentPolicy) (dd : DeployDraws)
    (el : List (Nat × ReceivingAgentState)) :
    ∀ x ∈ deploy_targets policy dd el, x ∈ el := by
  intro x hx
  cases policy with
  | all => exact hx
  | random =>
    unfold deploy_targets sample at hx
    dsimp only at hx
    rcases List.mem_append.mp hx with h | h
    · exact (List.mem_filter.mp (permuteBy_subset _ _ x (List.take_subset _ _ h))).1
    · exact (List.mem_filter.mp (permuteBy_subset _ _ x (List.take_subset _ _ h))).1
  | filtered =>
    unfold deploy_targets at hx
    exact (List.mem_filter.mp hx).1
  | other s =>
    unfold deploy_targets at hx
    simp at hx

/-- Deployment rewrites a collapsed community's `was_targeted` to false and
nothing else: the reset loop touches every agent, but a collapsed agent is
never eligible, hence never re-targeted. -/
theorem deploy_get_collapsed (policy : DeploymentPolicy) (dd : DeployDraws) (st : ModelState)
    (i : Nat) (a : ReceivingAgentState) (hget : st.agents.get? i = some a)
    (hcol : a.collapsed = true) :
    (deploy_technology policy dd st).agents.get? i =
      some { a with was_targeted := false } := by
  unfold deploy_technology
  dsimp only
  rw [List.get?_map, List.get?_enum, List.get?_map, hget]
  dsimp only [Option.map]
  rw [if_neg ?hni]
  case hni =>
    intro hcont
    have hmem : i ∈ (deploy_targets policy dd
        (eligible_agents ((st.agents.map (fun a => { a with was_targeted := false })).enum))).map
          (fun ia => ia.1) := by
      simpa using hcont
    rw [List.mem_map] at hmem
    obtain ⟨⟨j, b⟩, hjb, hj⟩ := hmem
    subst hj
    have helig := deploy_targets_subset policy dd _ _ hjb
    obtain ⟨henum, hflags⟩ := List.mem_filter.mp helig
    have hgb := List.mem_enum_iff_get?.mp henum
    dsimp only at hgb
    rw [List.get?_map, hget] at hgb
    dsimp only [Option.map] at hgb
    obtain rfl := Option.some.inj hgb
    dsimp only at hflags
    rw [hcol] at hflags
    simp at hflags

/-- The shuffled per-agent update loop never changes a collapsed
community's state. -/
theorem fold_steps_frame (p : ModelParams) (order : List Nat) (draws : Nat → StepDraws)
    (st : ModelState) (i : Nat) (b : ReceivingAgentState)
    (hb : st.agents.get? i = some b) (hcol : b.collapsed = true) :
    (order.foldl (fun s j => step_agent_at p s (draws j) j) st).agents.get? i = some b := by
  induction order generalizing st with
  | nil => exact hb
  | cons j js ih =>
    simp only [List.foldl_cons]
    apply ih
    unfold step_agent_at
    cases hg : st.agents.get? j with
    | none => exact hb
    | some c =>
      dsimp only
      by_cases hij : j = i
      · subst hij
        rw [hg] at hb
        obtain rfl := Option.some.inj hb
        have hstep : ReceivingAgent.step p (neighborViews st j) (draws j) c = c :=
          step_skips_inactive _ _ _ _ (Or.inr hcol)
        rw [List.get?_set_eq, hg]
        simp [hstep]
      · rw [List.get?_set_ne _ _ hij]
        exact hb

/-- C6 (amended): once a community is collapsed, a full subsequent round
(deployment, dominance feedback, shuffled agent updates, under any
targeting policy) changes exactly one of its fields: `was_targeted` is
reset to false by the deployer's reset loop; every other field is
unchanged. -/
theorem C6_collapsed_frame (p : ModelParams) (policy : DeploymentPolicy) (rd : RoundDraws)
    (st : ModelState) (i : Nat) (a : ReceivingAgentState)
    (hget : st.agents.get? i = some a) (hcol : a.collapsed = true) :
    (model_step p policy rd st).agents.get? i = some { a with was_targeted := false } := by
  unfold model_step tech_agent_step
  dsimp only
  apply fold_steps_frame
  · exact deploy_get_collapsed policy rd.deploy_draws st i a hget hcol
  · exact hcol

/-- C6 (counterexample): a collapsed community that was targeted in the
round it collapsed does NOT keep all its fields in the next round — the
deployer's reset loop flips its `was_targeted` flag from true to false. -/
theorem C6_counterexample :
    exCollapsedAgent.collapsed = true ∧ exCollapsedAgent.was_targeted = true ∧
    (model_step exParams DeploymentPolicy.all exRoundDraws exCollapsedModel).agents.get? 0 =
      some { exCollapsedAgent with was_targeted := false } ∧
    (model_step exParams DeploymentPolicy.all exRoundDraws exCollapsedModel).agents.get? 0 ≠
      some exCollapsedAgent := by
  refine ⟨rfl, rfl, rfl, ?_⟩
  rw [show (model_step exParams DeploymentPolicy.all exRoundDraws exCollapsedModel).agents.get? 0 =
      some { exCollapsedAgent with was_targeted := false } from rfl]
  intro h
  have h2 := congrArg ReceivingAgentState.was_targeted (Option.some.inj h)
  exact absurd h2 (by decide)

/-- C6 (witness). -/
theorem C6_witness :
    exCollapsedModel.agents.get? 0 = some exCollapsedAgent ∧
    exCollapsedAgent.collapsed = true ∧
    (model_step exParams DeploymentPolicy.all exRoundDraws exCollapsedModel).agents.get? 0 =
      some { exCollapsedAgent with was_targeted := false } :=
  ⟨rfl, rfl, C6_collapsed_frame exParams DeploymentPolicy.all exRoundDraws exCollapsedModel 0
    exCollapsedAgent rfl rfl⟩

end DigitalColonialism















